import Mathlib

set_option maxRecDepth 10000

/-!
Verification of the qutrub-ng verb-form module: a shallow embedding of
`libqutrub/verb_form_detector.py` and `libqutrub/conjugator.py`.

Strings are embedded as lists of Unicode characters (`Str := List Char`),
matching Pythons code-point string model.  Arabic characters are written
by code point to keep the sources of each literal auditable.
-/

namespace Qutrub

/-- Python strings are sequences of Unicode code points. -/
abbrev Str := List Char

/-! ### Character constants (from pyarabic.araby) -/

def FATHA : Char := Char.ofNat 0x064E

def DAMMA : Char := Char.ofNat 0x064F

def KASRA : Char := Char.ofNat 0x0650

def SHADDA : Char := Char.ofNat 0x0651

def SUKUN : Char := Char.ofNat 0x0652

def FATHATAN : Char := Char.ofNat 0x064B

def DAMMATAN : Char := Char.ofNat 0x064C

def KASRATAN : Char := Char.ofNat 0x064D

def ALEF : Char := Char.ofNat 0x0627

def ALEF_WASLA : Char := Char.ofNat 0x0671

def ALEF_HAMZA_ABOVE : Char := Char.ofNat 0x0623

def ALEF_HAMZA_BELOW : Char := Char.ofNat 0x0625

def ALEF_MADDA : Char := Char.ofNat 0x0622

def YEH : Char := Char.ofNat 0x064A

def ALEF_MAKSURA : Char := Char.ofNat 0x0649

/-- The letter teh ت, written literally in the Python source. -/
def TEH : Char := Char.ofNat 0x062A

/-- The letter noon ن. -/
def NOON : Char := Char.ofNat 0x0646

/-- The letter feh ف. -/
def FEH : Char := Char.ofNat 0x0641

/-- The letter seen س. -/
def SEEN : Char := Char.ofNat 0x0633

/-- The letter kaf ك (used by the test fixtures). -/
def KAF : Char := Char.ofNat 0x0643

/-- The letter beh ب (used by the test fixtures). -/
def BEH : Char := Char.ofNat 0x0628

/-- The ASCII single-quote character used by the sentinel f-strings. -/
def SQUOTE : Char := Char.ofNat 0x27

/-! ### Canonical fixture verbs (code points exactly as in the spec and tests) -/

def KATABA : Str := [Char.ofNat 0x0643, Char.ofNat 0x064E, Char.ofNat 0x062A, Char.ofNat 0x064E, Char.ofNat 0x0628, Char.ofNat 0x064E]

def KATTABA : Str := [Char.ofNat 0x0643, Char.ofNat 0x064E, Char.ofNat 0x062A, Char.ofNat 0x064E, Char.ofNat 0x0651, Char.ofNat 0x0628, Char.ofNat 0x064E]

def KAATABA : Str := [Char.ofNat 0x0643, Char.ofNat 0x064E, Char.ofNat 0x0627, Char.ofNat 0x062A, Char.ofNat 0x064E, Char.ofNat 0x0628, Char.ofNat 0x064E]

def AKTABA : Str := [Char.ofNat 0x0623, Char.ofNat 0x064E, Char.ofNat 0x0643, Char.ofNat 0x0652, Char.ofNat 0x062A, Char.ofNat 0x064E, Char.ofNat 0x0628, Char.ofNat 0x064E]

def TAKATTABA : Str := [Char.ofNat 0x062A, Char.ofNat 0x064E, Char.ofNat 0x0643, Char.ofNat 0x064E, Char.ofNat 0x062A, Char.ofNat 0x064E, Char.ofNat 0x0651, Char.ofNat 0x0628, Char.ofNat 0x064E]

def TAKAATABA : Str := [Char.ofNat 0x062A, Char.ofNat 0x064E, Char.ofNat 0x0643, Char.ofNat 0x064E, Char.ofNat 0x0627, Char.ofNat 0x062A, Char.ofNat 0x064E, Char.ofNat 0x0628, Char.ofNat 0x064E]

def INKATABA : Str := [Char.ofNat 0x0627, Char.ofNat 0x0650, Char.ofNat 0x0646, Char.ofNat 0x0652, Char.ofNat 0x0643, Char.ofNat 0x064E, Char.ofNat 0x062A, Char.ofNat 0x064E, Char.ofNat 0x0628, Char.ofNat 0x064E]

def IKTATABA : Str := [Char.ofNat 0x0627, Char.ofNat 0x0650, Char.ofNat 0x0643, Char.ofNat 0x0652, Char.ofNat 0x062A, Char.ofNat 0x064E, Char.ofNat 0x062A, Char.ofNat 0x064E, Char.ofNat 0x0628, Char.ofNat 0x064E]

def ISTAKTABA : Str := [Char.ofNat 0x0627, Char.ofNat 0x0650, Char.ofNat 0x0633, Char.ofNat 0x0652, Char.ofNat 0x062A, Char.ofNat 0x064E, Char.ofNat 0x0643, Char.ofNat 0x0652, Char.ofNat 0x062A, Char.ofNat 0x064E, Char.ofNat 0x0628, Char.ofNat 0x064E]

/-- The unvocalized root كتب. -/
def KTB : Str := [Char.ofNat 0x0643, Char.ofNat 0x062A, Char.ofNat 0x0628]

/-! ### Python string primitives -/

/-- Characters removed by Pythons default str.strip (Unicode whitespace). -/
def pyIsSpace (c : Char) : Bool :=
  c.toNat ∈ [0x09, 0x0A, 0x0B, 0x0C, 0x0D, 0x1C, 0x1D, 0x1E, 0x1F, 0x20,
    0x85, 0xA0, 0x1680, 0x2000, 0x2001, 0x2002, 0x2003, 0x2004, 0x2005,
    0x2006, 0x2007, 0x2008, 0x2009, 0x200A, 0x2028, 0x2029, 0x202F, 0x205F, 0x3000]

/-- Python str.strip(): drop whitespace from both ends. -/
def pyStrip (v : Str) : Str :=
  ((v.dropWhile pyIsSpace).reverse.dropWhile pyIsSpace).reverse

/-- Python slice v[a:b] for 0 ≤ a ≤ b (with Pythons clamping). -/
def pySlice (v : Str) (a b : Nat) : Str :=
  (v.drop a).take (b - a)

/-- Python slice v[a:-1]. -/
def pySliceToLast (v : Str) (a : Nat) : Str :=
  (v.drop a).dropLast

/-- Python f-string left justification (x:<w) (pad with spaces, never truncate). -/
def ljust (w : Nat) (s : Str) : Str :=
  s ++ List.replicate (w - s.length) (Char.ofNat 0x20)

/-- Python str(int) for naturals (decimal digits). -/
def natToChars (n : Nat) : Str :=
  Nat.toDigits 10 n

/-- Python str formatting of an int-or-None value: None prints as None. -/
def pyFormatOptNat (o : Option Nat) : Str :=
  match o with
  | none => ("None").toList
  | some k => natToChars k

/-- Python f-string (q:.1%) for the nonnegative exact multiples of 1/1000
reachable here (the only confidence ever formatted is 0.9, printed as
90.0%).  Works on num/den directly so the kernel can evaluate it. -/
def formatPercent (q : ℚ) : Str :=
  let m : Nat := q.num.toNat * 1000 / q.den
  natToChars (m / 10) ++ (".").toList ++ natToChars (m % 10) ++ ("%").toList

/-- Python str.upper(); the dispatch strings compared by the facade are ASCII. -/
def pyUpper (s : Str) : Str :=
  s.map Char.toUpper

/-- Pythons substring containment test (needle in hay) for strings. -/
def isSubstringOf (needle : Str) : Str → Bool
  | [] => needle.isEmpty
  | c :: rest => List.isPrefixOf needle (c :: rest) || isSubstringOf needle rest

/-! ### Diacritic model (verb_form_detector.py) -/

/-- VerbFormDetector.is_vocalized: the verb has one of the five diacritics. -/
def is_vocalized (verb : Str) : Bool :=
  verb.any (fun c => [FATHA, DAMMA, KASRA, SHADDA, SUKUN].contains c)

/-- VerbFormDetector.normalize_verb: collapse alef variants, and a trailing
yeh/alef-maksura to yeh; unvocalized input is returned unchanged. -/
def normalize_verb (verb : Str) : Str :=
  if is_vocalized verb = false then verb
  else
    let n1 := verb.map (fun c =>
      if [ALEF, ALEF_HAMZA_ABOVE, ALEF_HAMZA_BELOW, ALEF_MADDA].contains c then ALEF else c)
    match n1.getLast? with
    | some c => if [YEH, ALEF_MAKSURA].contains c then n1.dropLast ++ [YEH] else n1
    | none => n1

/-- Modelled from the spec: araby.strip_vocalization is the external pyarabic
diacritic utility (strip all vowel marks, §6), not part of this repository.
It removes the seven short-vowel/tanwin/sukun marks and keeps shadda, which
the conjugators docstring says must be given, its considered as letter
(pyarabics strip_harakat, the first name the conjugators fallback chain
looks up). -/
def strip_vocalization (v : Str) : Str :=
  v.filter (fun c => !([FATHATAN, DAMMATAN, KASRATAN, FATHA, DAMMA, KASRA, SUKUN].contains c))

/-! ### Classifier rule predicates, in source order (detect_form_pattern) -/

/-- Form II rule: shadda strictly inside, not starting alef+fatha / teh / alef. -/
def cond_form2 (v : Str) : Bool :=
  (pySliceToLast v 1).contains SHADDA &&
  !(List.isPrefixOf [ALEF, FATHA] v) &&
  !(List.isPrefixOf [TEH] v) &&
  !(List.isPrefixOf [ALEF] v)

/-- Form III rule: stripped length ≥ 4 and an alef with fatha in window v[1:3]. -/
def cond_form3 (v : Str) : Bool :=
  decide (4 ≤ (strip_vocalization v).length) &&
  (((pySlice v 1 3).contains ALEF && (pySlice v 1 3).contains FATHA) ||
   (isSubstringOf [FATHA, ALEF] (pySlice v 1 3) || isSubstringOf [ALEF, FATHA] (pySlice v 1 3)))

/-- Form IV rule: starts alef+fatha, stripped length ≥ 4. -/
def cond_form4 (v : Str) : Bool :=
  List.isPrefixOf [ALEF, FATHA] v && decide (4 ≤ (strip_vocalization v).length)

/-- Form V rule: starts teh+fatha, shadda in v[2:-1], stripped length ≥ 5. -/
def cond_form5 (v : Str) : Bool :=
  List.isPrefixOf [TEH, FATHA] v && (pySliceToLast v 2).contains SHADDA &&
  decide (5 ≤ (strip_vocalization v).length)

/-- Form VI rule: starts teh+fatha, alef (bare or fatha+alef) in v[2:4],
stripped length ≥ 5. -/
def cond_form6 (v : Str) : Bool :=
  List.isPrefixOf [TEH, FATHA] v &&
  ((pySlice v 2 4).contains ALEF || isSubstringOf [FATHA, ALEF] (pySlice v 2 4)) &&
  decide (5 ≤ (strip_vocalization v).length)

/-- Form VII rule: starts alef/alef-wasla + kasra + noon, stripped length ≥ 5. -/
def cond_form7 (v : Str) : Bool :=
  (List.isPrefixOf [ALEF, KASRA, NOON] v || List.isPrefixOf [ALEF_WASLA, KASRA, NOON] v) &&
  decide (5 ≤ (strip_vocalization v).length)

/-- Form VIII rule: starts alef/alef-wasla + kasra + the literal letter feh,
stripped length ≥ 5. -/
def cond_form8 (v : Str) : Bool :=
  (List.isPrefixOf [ALEF, KASRA, FEH] v || List.isPrefixOf [ALEF_WASLA, KASRA, FEH] v) &&
  decide (5 ≤ (strip_vocalization v).length)

/-- Form IX rule: starts alef/alef-wasla + kasra, ends with shadda,
stripped length ≥ 5. -/
def cond_form9 (v : Str) : Bool :=
  (List.isPrefixOf [ALEF, KASRA] v || List.isPrefixOf [ALEF_WASLA, KASRA] v) &&
  List.isSuffixOf [SHADDA] v &&
  decide (5 ≤ (strip_vocalization v).length)

/-- Form X rule: starts alef/alef-wasla + kasra + seen, teh in v[2:5],
stripped length ≥ 6. -/
def cond_form10 (v : Str) : Bool :=
  (List.isPrefixOf [ALEF, KASRA, SEEN] v || List.isPrefixOf [ALEF_WASLA, KASRA, SEEN] v) &&
  (pySlice v 2 5).contains TEH &&
  decide (6 ≤ (strip_vocalization v).length)

/-- Form I rule (checked last): stripped length exactly 3, has fatha, no shadda,
not starting alef+fatha or teh. -/
def cond_form1 (v : Str) (length : Nat) : Bool :=
  (length == 3) && v.contains FATHA && !(v.contains SHADDA) &&
  !(List.isPrefixOf [ALEF, FATHA] v) && !(List.isPrefixOf [TEH] v)

/-- The Python float literal 0.9 (the fixed confidence), as an already
normalized rational so that kernel reduction never needs Rat arithmetic. -/
def CONF : ℚ := Rat.mk' 9 10 (by norm_num) (by norm_num)

/-- VerbFormDetector.detect_form_pattern: first-match-wins over the ordered rule
list; none of the rule predicates can raise on a Lean Str, so the sources
try/except wrapper is the plain if-chain. -/
def detect_form_pattern (verb : Str) : Option Nat × ℚ :=
  if verb = [] then (none, 0)
  else if is_vocalized verb = false then (none, 0)
  else
    let v := normalize_verb verb
    let length := (strip_vocalization v).length
    if cond_form2 v then (some 2, CONF)
    else if cond_form3 v then (some 3, CONF)
    else if cond_form4 v then (some 4, CONF)
    else if cond_form5 v then (some 5, CONF)
    else if cond_form6 v then (some 6, CONF)
    else if cond_form7 v then (some 7, CONF)
    else if cond_form8 v then (some 8, CONF)
    else if cond_form9 v then (some 9, CONF)
    else if cond_form10 v then (some 10, CONF)
    else if cond_form1 v length then (some 1, CONF)
    else (none, 0)

/-! ### Generator (generate_form_variants) -/

/-- The final list comprehension filter: `if v and len(v.strip()) > 0`. -/
def variant_kept (v : Str) : Bool :=
  !(v.isEmpty) && decide (0 < (pyStrip v).length)

/-- The per-form templates over the three root letters, as in the sources
if/elif chain; forms without a branch (notably 9) yield no variants. -/
def form_templates (f1 f2 f3 : Char) (form_num : Nat) : List Str :=
  if form_num = 1 then
    [[f1, FATHA, f2, FATHA, f3],
     [f1, FATHA, f2, DAMMA, f3],
     [f1, FATHA, f2, KASRA, f3]]
  else if form_num = 2 then
    [[f1, FATHA, f2, SHADDA, FATHA, f3],
     [f1, FATHA, f2, SHADDA, ALEF, f3]]
  else if form_num = 3 then
    [[f1, FATHA, ALEF, f2, FATHA, f3]]
  else if form_num = 4 then
    [[ALEF, FATHA, f1, SUKUN, f2, FATHA, f3, ALEF],
     [ALEF, FATHA, f1, SUKUN, f2, FATHA, f3]]
  else if form_num = 5 then
    [[TEH, FATHA, f1, FATHA, f2, SHADDA, FATHA, f3, ALEF],
     [TEH, FATHA, f1, FATHA, f2, SHADDA, FATHA, f3]]
  else if form_num = 6 then
    [[TEH, FATHA, f1, ALEF, f2, FATHA, f3, ALEF],
     [TEH, FATHA, f1, ALEF, f2, FATHA, f3]]
  else if form_num = 7 then
    [[ALEF_WASLA, KASRA, NOON, SUKUN, f1, FATHA, f2, FATHA, f3, ALEF],
     [ALEF_WASLA, KASRA, NOON, SUKUN, f1, FATHA, f2, FATHA, f3]]
  else if form_num = 8 then
    [[ALEF_WASLA, KASRA, FEH, SUKUN, f1, FATHA, f2, FATHA, f3, ALEF],
     [ALEF_WASLA, KASRA, FEH, SUKUN, f1, FATHA, f2, FATHA, f3]]
  else if form_num = 10 then
    [[ALEF_WASLA, KASRA, SEEN, SUKUN, TEH, FATHA, f1, SUKUN, f2, FATHA, f3, ALEF],
     [ALEF_WASLA, KASRA, SEEN, SUKUN, TEH, FATHA, f1, SUKUN, f2, FATHA, f3]]
  else []

/-- VerbFormDetector.generate_form_variants. -/
def generate_form_variants (root_verb : Str) (form_num : Nat) : List Str :=
  if root_verb = [] then []
  else
    let root := strip_vocalization root_verb
    if root.length < 3 then []
    else
      let variants : List Str :=
        match root with
        | [f1, f2, f3] => form_templates f1 f2 f3 form_num
        | _ => []
      variants.filter variant_kept

/-! ### Form registry (VERB_FORMS, verb_form_detector.py lines 53-64) -/

/-- VerbFormInfo: record for one of the ten forms; the source field named
example is a Lean keyword, rendered here as example_verb. -/
structure VerbFormInfo where
  form_num : Nat
  arabic_name : Str
  pattern : Str
  english_meaning : Str
  example_verb : Str
deriving DecidableEq

/-- The hard-coded registry dict, as an association list keyed by form number;
all Arabic strings carry the exact code points of the source literals. -/
def VERB_FORMS : List (Nat × VerbFormInfo) := [
  (1, { form_num := 1,
          arabic_name := [Char.ofNat 0x0627, Char.ofNat 0x0644, Char.ofNat 0x0641, Char.ofNat 0x0639, Char.ofNat 0x0644, Char.ofNat 0x0020, Char.ofNat 0x0627, Char.ofNat 0x0644, Char.ofNat 0x0645, Char.ofNat 0x062C, Char.ofNat 0x0631, Char.ofNat 0x062F],
          pattern := [Char.ofNat 0x0641, Char.ofNat 0x064E, Char.ofNat 0x0639, Char.ofNat 0x064E, Char.ofNat 0x0644, Char.ofNat 0x064E],
          english_meaning := ("Basic/Original").toList,
          example_verb := [Char.ofNat 0x0643, Char.ofNat 0x064E, Char.ofNat 0x062A, Char.ofNat 0x064E, Char.ofNat 0x0628, Char.ofNat 0x064E] }),
  (2, { form_num := 2,
          arabic_name := [Char.ofNat 0x0641, Char.ofNat 0x064E, Char.ofNat 0x0639, Char.ofNat 0x064E, Char.ofNat 0x0651, Char.ofNat 0x0644, Char.ofNat 0x064E],
          pattern := [Char.ofNat 0x0641, Char.ofNat 0x064E, Char.ofNat 0x0639, Char.ofNat 0x064E, Char.ofNat 0x0651, Char.ofNat 0x0644, Char.ofNat 0x064E],
          english_meaning := ("Intensive/Causative").toList,
          example_verb := [Char.ofNat 0x0643, Char.ofNat 0x064E, Char.ofNat 0x062A, Char.ofNat 0x064E, Char.ofNat 0x0651, Char.ofNat 0x0628, Char.ofNat 0x064E] }),
  (3, { form_num := 3,
          arabic_name := [Char.ofNat 0x0641, Char.ofNat 0x064E, Char.ofNat 0x0627, Char.ofNat 0x0639, Char.ofNat 0x064E, Char.ofNat 0x0644, Char.ofNat 0x064E],
          pattern := [Char.ofNat 0x0641, Char.ofNat 0x064E, Char.ofNat 0x0627, Char.ofNat 0x0639, Char.ofNat 0x064E, Char.ofNat 0x0644, Char.ofNat 0x064E],
          english_meaning := ("Interactive/Reciprocal").toList,
          example_verb := [Char.ofNat 0x0643, Char.ofNat 0x064E, Char.ofNat 0x0627, Char.ofNat 0x062A, Char.ofNat 0x064E, Char.ofNat 0x0628, Char.ofNat 0x064E] }),
  (4, { form_num := 4,
          arabic_name := [Char.ofNat 0x0623, Char.ofNat 0x064E, Char.ofNat 0x0641, Char.ofNat 0x0652, Char.ofNat 0x0639, Char.ofNat 0x064E, Char.ofNat 0x0644, Char.ofNat 0x064E],
          pattern := [Char.ofNat 0x0623, Char.ofNat 0x064E, Char.ofNat 0x0641, Char.ofNat 0x0652, Char.ofNat 0x0639, Char.ofNat 0x064E, Char.ofNat 0x0644, Char.ofNat 0x064E],
          english_meaning := ("Causative/Declarative").toList,
          example_verb := [Char.ofNat 0x0623, Char.ofNat 0x064E, Char.ofNat 0x0643, Char.ofNat 0x0652, Char.ofNat 0x062A, Char.ofNat 0x064E, Char.ofNat 0x0628, Char.ofNat 0x064E] }),
  (5, { form_num := 5,
          arabic_name := [Char.ofNat 0x062A, Char.ofNat 0x064E, Char.ofNat 0x0641, Char.ofNat 0x064E, Char.ofNat 0x0639, Char.ofNat 0x064E, Char.ofNat 0x0651, Char.ofNat 0x0644, Char.ofNat 0x064E],
          pattern := [Char.ofNat 0x062A, Char.ofNat 0x064E, Char.ofNat 0x0641, Char.ofNat 0x064E, Char.ofNat 0x0639, Char.ofNat 0x064E, Char.ofNat 0x0651, Char.ofNat 0x0644, Char.ofNat 0x064E],
          english_meaning := ("Reflexive of Form II").toList,
          example_verb := [Char.ofNat 0x062A, Char.ofNat 0x064E, Char.ofNat 0x0643, Char.ofNat 0x064E, Char.ofNat 0x062A, Char.ofNat 0x064E, Char.ofNat 0x0651, Char.ofNat 0x0628, Char.ofNat 0x064E] }),
  (6, { form_num := 6,
          arabic_name := [Char.ofNat 0x062A, Char.ofNat 0x064E, Char.ofNat 0x0641, Char.ofNat 0x0627, Char.ofNat 0x0639, Char.ofNat 0x064E, Char.ofNat 0x0644, Char.ofNat 0x064E],
          pattern := [Char.ofNat 0x062A, Char.ofNat 0x064E, Char.ofNat 0x0641, Char.ofNat 0x0627, Char.ofNat 0x0639, Char.ofNat 0x064E, Char.ofNat 0x0644, Char.ofNat 0x064E],
          english_meaning := ("Reciprocal of Form III").toList,
          example_verb := [Char.ofNat 0x062A, Char.ofNat 0x064E, Char.ofNat 0x0643, Char.ofNat 0x064E, Char.ofNat 0x0627, Char.ofNat 0x062A, Char.ofNat 0x064E, Char.ofNat 0x0628, Char.ofNat 0x064E] }),
  (7, { form_num := 7,
          arabic_name := [Char.ofNat 0x0627, Char.ofNat 0x0650, Char.ofNat 0x0646, Char.ofNat 0x0652, Char.ofNat 0x0641, Char.ofNat 0x064E, Char.ofNat 0x0639, Char.ofNat 0x064E, Char.ofNat 0x0644, Char.ofNat 0x064E],
          pattern := [Char.ofNat 0x0627, Char.ofNat 0x0650, Char.ofNat 0x0646, Char.ofNat 0x0652, Char.ofNat 0x0641, Char.ofNat 0x064E, Char.ofNat 0x0639, Char.ofNat 0x064E, Char.ofNat 0x0644, Char.ofNat 0x064E],
          english_meaning := ("Passive/Reflexive").toList,
          example_verb := [Char.ofNat 0x0627, Char.ofNat 0x0650, Char.ofNat 0x0646, Char.ofNat 0x0652, Char.ofNat 0x0643, Char.ofNat 0x064E, Char.ofNat 0x062A, Char.ofNat 0x064E, Char.ofNat 0x0628, Char.ofNat 0x064E] }),
  (8, { form_num := 8,
          arabic_name := [Char.ofNat 0x0627, Char.ofNat 0x0650, Char.ofNat 0x0641, Char.ofNat 0x0652, Char.ofNat 0x062A, Char.ofNat 0x064E, Char.ofNat 0x0639, Char.ofNat 0x064E, Char.ofNat 0x0644, Char.ofNat 0x064E],
          pattern := [Char.ofNat 0x0627, Char.ofNat 0x0650, Char.ofNat 0x0641, Char.ofNat 0x0652, Char.ofNat 0x062A, Char.ofNat 0x064E, Char.ofNat 0x0639, Char.ofNat 0x064E, Char.ofNat 0x0644, Char.ofNat 0x064E],
          english_meaning := ("Reflexive/Participatory").toList,
          example_verb := [Char.ofNat 0x0627, Char.ofNat 0x0650, Char.ofNat 0x0643, Char.ofNat 0x0652, Char.ofNat 0x062A, Char.ofNat 0x064E, Char.ofNat 0x062A, Char.ofNat 0x064E, Char.ofNat 0x0628, Char.ofNat 0x064E] }),
  (9, { form_num := 9,
          arabic_name := [Char.ofNat 0x0627, Char.ofNat 0x0650, Char.ofNat 0x0641, Char.ofNat 0x0652, Char.ofNat 0x0639, Char.ofNat 0x064E, Char.ofNat 0x0644, Char.ofNat 0x064E, Char.ofNat 0x0651],
          pattern := [Char.ofNat 0x0627, Char.ofNat 0x0650, Char.ofNat 0x0641, Char.ofNat 0x0652, Char.ofNat 0x0639, Char.ofNat 0x064E, Char.ofNat 0x0644, Char.ofNat 0x064E, Char.ofNat 0x0651],
          english_meaning := ("Color/Physical Defects").toList,
          example_verb := [Char.ofNat 0x0627, Char.ofNat 0x0650, Char.ofNat 0x0634, Char.ofNat 0x0652, Char.ofNat 0x0648, Char.ofNat 0x064E, Char.ofNat 0x062F, Char.ofNat 0x064E, Char.ofNat 0x0651] }),
  (10, { form_num := 10,
          arabic_name := [Char.ofNat 0x0627, Char.ofNat 0x0650, Char.ofNat 0x0633, Char.ofNat 0x0652, Char.ofNat 0x062A, Char.ofNat 0x064E, Char.ofNat 0x0641, Char.ofNat 0x0652, Char.ofNat 0x0639, Char.ofNat 0x064E, Char.ofNat 0x0644, Char.ofNat 0x064E],
          pattern := [Char.ofNat 0x0627, Char.ofNat 0x0650, Char.ofNat 0x0633, Char.ofNat 0x0652, Char.ofNat 0x062A, Char.ofNat 0x064E, Char.ofNat 0x0641, Char.ofNat 0x0652, Char.ofNat 0x0639, Char.ofNat 0x064E, Char.ofNat 0x0644, Char.ofNat 0x064E],
          english_meaning := ("Request/Seeking").toList,
          example_verb := [Char.ofNat 0x0627, Char.ofNat 0x0650, Char.ofNat 0x0633, Char.ofNat 0x0652, Char.ofNat 0x062A, Char.ofNat 0x064E, Char.ofNat 0x0643, Char.ofNat 0x0652, Char.ofNat 0x062A, Char.ofNat 0x064E, Char.ofNat 0x0628, Char.ofNat 0x064E] })]

/-- VerbFormDetector.get_form_info: dict .get, i.e. a fallible lookup that
yields nothing for an absent key. -/
def get_form_info (form_num : Nat) : Option VerbFormInfo :=
  VERB_FORMS.lookup form_num

/-- The registrys infallible indexing self.verb_forms[n] used by the table
renderer, which only ever indexes present keys 1..10. -/
def verb_forms_get (form_num : Nat) : VerbFormInfo :=
  (VERB_FORMS.lookup form_num).getD
    { form_num := 0, arabic_name := [], pattern := [], english_meaning := [],
      example_verb := [] }

/-! ### Reporter (create_ascii_table, verb_form_detector.py) -/

/-- Python dict.get with a default, over the association-list embedding. -/
def dictGet (d : List (Nat × Str)) (k : Nat) (default : Str) : Str :=
  (d.lookup k).getD default

/-- The border line of the ASCII table (copied from the source literal). -/
def tableBorder : Str :=
  ("+-----+----------------------+----------------------+--------------------+").toList

/-- The header line of the ASCII table (copied from the source literal). -/
def tableHeader : Str :=
  ("|Form | Arabic Name          | Conjugated Verb      | Meaning            |").toList

/-- create_ascii_tables detection step:
`detect_form_pattern(base_verb) if base_verb else (None, 0)`. -/
def ascii_current (base_verb : Str) : Option Nat × ℚ :=
  if base_verb ≠ [] then detect_form_pattern base_verb else (none, 0)

/-- One data row of the ASCII table, for a given form number. -/
def ascii_row (base_verb : Str) (forms_data : List (Nat × Str))
    (current_form : Option Nat) (form_num : Nat) : Str :=
  let form_info := verb_forms_get form_num
  let conjugated0 := dictGet forms_data form_num
    (if base_verb ≠ [] then ("Generated").toList else ("N/A").toList)
  let conjugated :=
    if conjugated0 = ("Generated").toList ∧ base_verb ≠ [] then
      match generate_form_variants base_verb form_num with
      | [] => conjugated0
      | v :: _ => v
    else conjugated0
  let form_marker :=
    if some form_num = current_form then natToChars form_num ++ ("*").toList
    else natToChars form_num
  ("| ").toList ++ ljust 3 form_marker ++ (" | ").toList ++
    ljust 20 form_info.arabic_name ++ (" | ").toList ++
    ljust 20 conjugated ++ (" | ").toList ++
    ljust 18 form_info.english_meaning ++ (" |").toList

/-- The fixed part of create_ascii_tables table_lines: top border, header,
separator, the ten data rows, bottom border. -/
def ascii_table_main (base_verb : Str) (forms_data : List (Nat × Str)) : List Str :=
  [tableBorder, tableHeader, tableBorder] ++
    (List.range' 1 10).map (ascii_row base_verb forms_data (ascii_current base_verb).1) ++
    [tableBorder]

/-- VerbFormDetector.create_ascii_table as its list of lines (table_lines in
the source): the fixed part plus, when a form was detected (Python truthiness),
the two trailing summary lines; `if not forms_data: forms_data = ()` is the
identity for association-list lookups, so it is not repeated here. -/
def create_ascii_table_lines (base_verb : Str) (forms_data : List (Nat × Str)) : List Str :=
  match (ascii_current base_verb).1 with
  | some cf =>
      if cf ≠ 0 then
        ascii_table_main base_verb forms_data ++
          [("\nDetected: ").toList ++ base_verb ++ (" is Form ").toList ++
             natToChars cf ++ (" (").toList ++ (verb_forms_get cf).arabic_name ++ (")").toList,
           ("Confidence: ").toList ++ formatPercent (ascii_current base_verb).2]
      else ascii_table_main base_verb forms_data
  | none => ascii_table_main base_verb forms_data

/-- VerbFormDetector.create_ascii_table: the lines joined by newline. -/
def create_ascii_table (base_verb : Str) (forms_data : List (Nat × Str)) : Str :=
  List.intercalate ("\n").toList (create_ascii_table_lines base_verb forms_data)

/-! ### Conjugator facade (conjugator.py) -/

/-- Modelled from the spec: verb_const.VERB_FORMS_ORDER is repository code not
included under src/ (only its callers and tests are).  The spec has the table
builder fill every other form 1..10 and the repositorys test asserts every
i in 1..10 is in VERB_FORMS_ORDER, so it is the ordered list 1..10. -/
def VERB_FORMS_ORDER : List Nat := [1, 2, 3, 4, 5, 6, 7, 8, 9, 10]

/-- The forms_data dict create_verb_forms_table builds before filtering:
the input word at its detected form (if any), then - when the stripped root
has exactly 3 letters - the first generator candidate for every other form
that has one. -/
def forms_data_for (word : Str) : List (Nat × Str) :=
  let current_form := (detect_form_pattern word).1
  let seeded : List (Nat × Str) :=
    match current_form with
    | some cf => if cf ≠ 0 then [(cf, word)] else []
    | none => []
  let stripped_word := strip_vocalization word
  if stripped_word.length = 3 then
    seeded ++ VERB_FORMS_ORDER.filterMap (fun fn =>
      if some fn ≠ current_form then
        match generate_form_variants word fn with
        | [] => none
        | v :: _ => some (fn, v)
      else none)
  else seeded

/-- conjugator.create_verb_forms_table. -/
def create_verb_forms_table (word : Str) (form_filter : Option Nat)
    (transitive : Bool) : Str :=
  if word = [] then ("No verb provided").toList
  else
    let forms_data := forms_data_for word
    match form_filter with
    | some ff =>
        if ff ≠ 0 then
          match forms_data.lookup ff with
          | some v => create_ascii_table word [(ff, v)]
          | none =>
              ("Form ").toList ++ natToChars ff ++
                (" not available for verb ").toList ++ [SQUOTE] ++ word ++ [SQUOTE]
        else create_ascii_table word forms_data
    | none => create_ascii_table word forms_data

/-- The arguments of a forwarded do_sarf call (the external full-conjugation
engine, a collaborator outside this core). -/
structure SarfCall where
  word : Str
  future_type : Str
  alltense : Bool
  past : Bool
  future : Bool
  passive : Bool
  imperative : Bool
  future_moode : Bool
  confirmed : Bool
  transitive : Bool
  display_format : Str
deriving DecidableEq

/-- The result of the facade: either a string produced by this core, or a
symbolic call to one of the external collaborators (the full-conjugation
engine do_sarf, or the comprehensive-table display layer). -/
inductive ConjResult where
  | str : Str → ConjResult
  | comprehensive : Str → Str → Bool → ConjResult
  | sarf : SarfCall → ConjResult
deriving DecidableEq

/-- The filter-mismatch error f-string in conjugate. -/
def mismatch_error (word : Str) (detected : Option Nat) (form_filter : Nat) : Str :=
  ("Error: Verb ").toList ++ [SQUOTE] ++ word ++ [SQUOTE] ++ (" is Form ").toList ++
    pyFormatOptNat detected ++ (", not Form ").toList ++ natToChars form_filter

/-- conjugator.conjugate: dispatch on display_format, then optional
form-filter validation, else forward to the external engine. -/
def conjugate (word future_type : Str)
    (alltense past future passive imperative future_moode confirmed transitive : Bool)
    (display_format : Str) (form_filter : Option Nat) : ConjResult :=
  if pyUpper display_format = ("FORM_TABLE").toList then
    .str (create_verb_forms_table word form_filter transitive)
  else if pyUpper display_format = ("COMPREHENSIVE_TABLE").toList then
    .comprehensive word future_type transitive
  else
    let fallthrough : ConjResult :=
      .sarf { word := word, future_type := future_type, alltense := alltense,
              past := past, future := future, passive := passive,
              imperative := imperative, future_moode := future_moode,
              confirmed := confirmed, transitive := transitive,
              display_format := display_format }
    match form_filter with
    | some ff =>
        let detected_form := (detect_form_pattern word).1
        if detected_form ≠ some ff then .str (mismatch_error word detected_form ff)
        else fallthrough
    | none => fallthrough

/-! ### Helper lemmas -/

/-- An element on which the predicate fails survives dropWhile. -/
theorem mem_dropWhile_of_not {p : Char → Bool} {c : Char} (hc : p c = false) :
    ∀ {l : Str}, c ∈ l → c ∈ l.dropWhile p := by
  intro l h
  induction l with
  | nil => cases h
  | cons a t ih =>
      rcases List.mem_cons.mp h with rfl | ht
      · rw [List.dropWhile_cons, hc]
        exact List.mem_cons_self _ _
      · rw [List.dropWhile_cons]
        cases hpa : p a with
        | true => exact ih ht
        | false => exact List.mem_cons_of_mem _ ht

/-- A string containing a non-whitespace character has nonempty pyStrip. -/
theorem pyStrip_length_pos {c : Char} {v : Str} (hc : pyIsSpace c = false)
    (h : c ∈ v) : 0 < (pyStrip v).length := by
  have h1 : c ∈ v.dropWhile pyIsSpace := mem_dropWhile_of_not hc h
  have h2 : c ∈ (v.dropWhile pyIsSpace).reverse := List.mem_reverse.mpr h1
  have h3 : c ∈ (v.dropWhile pyIsSpace).reverse.dropWhile pyIsSpace :=
    mem_dropWhile_of_not hc h2
  have h4 : c ∈ pyStrip v := by
    unfold pyStrip
    exact List.mem_reverse.mpr h3
  exact List.length_pos.mpr (List.ne_nil_of_mem h4)

/-- A variant containing a fatha survives the generators final filter. -/
theorem variant_kept_of_mem_fatha {v : Str} (h : FATHA ∈ v) :
    variant_kept v = true := by
  unfold variant_kept
  have h1 : v.isEmpty = false := by
    cases v with
    | nil => cases h
    | cons a t => rfl
  have h2 : pyIsSpace FATHA = false := by decide
  simp [h1, pyStrip_length_pos h2 h]

/-- Any member line is a contiguous substring of the intercalated text. -/
theorem mem_intercalate {x : Str} (sep : Str) :
    ∀ {L : List Str}, x ∈ L → x <:+: List.intercalate sep L := by
  intro L h
  induction L with
  | nil => cases h
  | cons y t ih =>
      cases t with
      | nil =>
          rcases List.mem_cons.mp h with rfl | h0
          · simp [List.intercalate]
          · cases h0
      | cons z t2 =>
          have hstep : List.intercalate sep (y :: z :: t2) =
              y ++ sep ++ List.intercalate sep (z :: t2) := by
            simp [List.intercalate, List.intersperse]
          rcases List.mem_cons.mp h with rfl | h0
          · rw [hstep, List.append_assoc]
            exact ⟨[], sep ++ List.intercalate sep (z :: t2), by simp⟩
          · rw [hstep]
            rcases ih h0 with ⟨s, t3, hst⟩
            exact ⟨y ++ sep ++ s, t3, by rw [← hst]; simp⟩

/-- Unfolding the generator at an input whose stripped root is triliteral. -/
theorem generate_eq_filter {input : Str} {f1 f2 f3 : Char} (n : Nat)
    (h : strip_vocalization input = [f1, f2, f3]) :
    generate_form_variants input n = (form_templates f1 f2 f3 n).filter variant_kept := by
  have hne : input ≠ [] := by
    intro h0
    subst h0
    simp [strip_vocalization] at h
  unfold generate_form_variants
  rw [if_neg hne]
  simp only [h]
  rfl

/-! ### Claims -/

/-- C1: the specs canonical fixtures demand classify كَتَبَ=(1,.9), كَتَّبَ=(2,.9),
كَاتَبَ=(3,.9), أَكْتَبَ=(4,.9), تَكَتَّبَ=(5,.9), تَكَاتَبَ=(6,.9), اِنْكَتَبَ=(7,.9),
اِكْتَتَبَ=(8,.9), اِسْتَكْتَبَ=(10,.9).  Evaluating the embedded classifier at all
nine fixtures: seven hold, but the Form VI fixture تَكَاتَبَ and the Form VIII
fixture اِكْتَتَبَ are classified (none, 0) - the Form VI rule looks for the alef
in window v[2:4] where the canonical spelling has it at index 4, and the
Form VIII rule demands the literal letter feh after the alef-kasra prefix
instead of the first root letter - contradicting the repositorys own tests
(test_form_vi_detection, test_form_viii_detection). -/
theorem C1_canonical_fixtures :
    detect_form_pattern KATABA = (some 1, CONF) ∧
    detect_form_pattern KATTABA = (some 2, CONF) ∧
    detect_form_pattern KAATABA = (some 3, CONF) ∧
    detect_form_pattern AKTABA = (some 4, CONF) ∧
    detect_form_pattern TAKATTABA = (some 5, CONF) ∧
    detect_form_pattern INKATABA = (some 7, CONF) ∧
    detect_form_pattern ISTAKTABA = (some 10, CONF) ∧
    detect_form_pattern TAKAATABA = (none, 0) ∧
    detect_form_pattern IKTATABA = (none, 0) ∧
    CONF = (9 : ℚ) / 10 := by
  refine ⟨by decide, by decide, by decide, by decide, by decide, by decide,
    by decide, by decide, by decide, ?_⟩
  unfold CONF
  rw [Rat.mk'_eq_divInt, Rat.divInt_eq_div]
  norm_num

/-- C5: the Form Registry lookup yields the descriptor of each form number in
1..10 (with matching form_num field) and yields nothing for any form number
outside 1..10; in this embedding dict .gets absent-key result is the none of
the Option return type. -/
theorem C5_registry_lookup (n : Nat) :
    ((1 ≤ n ∧ n ≤ 10) → ∃ d, get_form_info n = some d ∧ d.form_num = n) ∧
    (¬(1 ≤ n ∧ n ≤ 10) → get_form_info n = none) := by
  constructor
  · rintro ⟨h1, h2⟩
    interval_cases n <;> exact ⟨_, rfl, rfl⟩
  · intro h
    have e1 : (n == 1) = false := by simp; omega
    have e2 : (n == 2) = false := by simp; omega
    have e3 : (n == 3) = false := by simp; omega
    have e4 : (n == 4) = false := by simp; omega
    have e5 : (n == 5) = false := by simp; omega
    have e6 : (n == 6) = false := by simp; omega
    have e7 : (n == 7) = false := by simp; omega
    have e8 : (n == 8) = false := by simp; omega
    have e9 : (n == 9) = false := by simp; omega
    have e10 : (n == 10) = false := by simp; omega
    simp [get_form_info, VERB_FORMS, List.lookup, e1, e2, e3, e4, e5, e6, e7, e8, e9, e10]

/-- C5 witness: out of range 11 yields none; in range 3 yields its descriptor. -/
theorem C5_registry_lookup_witness :
    get_form_info 11 = none ∧ ∃ d, get_form_info 3 = some d ∧ d.form_num = 3 :=
  ⟨(C5_registry_lookup 11).2 (by omega), (C5_registry_lookup 3).1 (by omega)⟩

/-- C8: classify of the empty string is (none, 0), and classify of any string
containing none of the five vowel/gemination marks is (none, 0). -/
theorem C8_empty_and_unvocalized :
    detect_form_pattern [] = (none, 0) ∧
    ∀ w : Str, (∀ c ∈ w, c ∉ [FATHA, DAMMA, KASRA, SHADDA, SUKUN]) →
      detect_form_pattern w = (none, 0) := by
  constructor
  · rfl
  · intro w h
    have hv : is_vocalized w = false := by
      unfold is_vocalized
      rw [List.any_eq_false]
      intro c hc
      simpa using h c hc
    rcases eq_or_ne w [] with rfl | hne
    · rfl
    · unfold detect_form_pattern
      rw [if_neg hne, if_pos hv]

/-- C8 witness: the unvocalized كتب is classified (none, 0). -/
theorem C8_empty_and_unvocalized_witness :
    detect_form_pattern KTB = (none, 0) :=
  C8_empty_and_unvocalized.2 KTB (by decide)

/-- A template list whose head contains a fatha filters to a nonempty list. -/
theorem filter_kept_ne_nil {t : Str} {rest : List Str} (h : FATHA ∈ t) :
    (t :: rest).filter variant_kept ≠ [] := by
  rw [List.filter_cons, variant_kept_of_mem_fatha h]
  simp

/-- C3: for input stripping to exactly 3 letters, the generator is non-empty
for every supported form 1-8 and 10; it is empty for form 9 on every input,
and empty for every form whenever the stripped length is not 3. -/
theorem C3_generator_coverage :
    (∀ input : Str, (strip_vocalization input).length = 3 →
      ∀ n ∈ [1, 2, 3, 4, 5, 6, 7, 8, 10], generate_form_variants input n ≠ []) ∧
    (∀ input : Str, generate_form_variants input 9 = []) ∧
    (∀ (input : Str) (n : Nat), (strip_vocalization input).length ≠ 3 →
      generate_form_variants input n = []) := by
  refine ⟨?_, ?_, ?_⟩
  · intro input hlen n hn
    obtain ⟨f1, f2, f3, hroot⟩ := List.length_eq_three.mp hlen
    rw [generate_eq_filter n hroot]
    fin_cases hn <;> exact filter_kept_ne_nil (by simp)
  · intro input
    rcases eq_or_ne input [] with rfl | hne
    · rfl
    unfold generate_form_variants
    rw [if_neg hne]
    rcases hr : strip_vocalization input with _ | ⟨a, _ | ⟨b, _ | ⟨c, _ | ⟨d, t⟩⟩⟩⟩ <;>
      simp [form_templates]
  · intro input n hne3
    rcases eq_or_ne input [] with rfl | hne
    · rfl
    unfold generate_form_variants
    rw [if_neg hne]
    rcases hr : strip_vocalization input with _ | ⟨a, _ | ⟨b, _ | ⟨c, _ | ⟨d, t⟩⟩⟩⟩
    · simp
    · simp
    · simp
    · rw [hr] at hne3
      simp at hne3
    · rw [if_neg (by simp)]
      rfl

/-- C3 witness: كتب generates form 2 variants, no form 9 variants, and the
one-letter root ك generates nothing. -/
theorem C3_generator_coverage_witness :
    generate_form_variants KTB 2 ≠ [] ∧ generate_form_variants KTB 9 = [] ∧
    generate_form_variants [KAF] 5 = [] :=
  ⟨C3_generator_coverage.1 KTB (by decide) 2 (by decide),
   C3_generator_coverage.2.1 KTB,
   C3_generator_coverage.2.2 [KAF] 5 (by decide)⟩

/-- C4 counterexample: the claim says every supported form yields 1 or 2
candidates, but form 1 on كتب yields 3 (the fatha/damma/kasra middle-vowel
alternatives). -/
theorem C4_counterexample :
    ¬((generate_form_variants KTB 1).length = 1 ∨
      (generate_form_variants KTB 1).length = 2) := by
  decide

/-- Every template the generator can emit contains a fatha. -/
theorem mem_form_templates_fatha {f1 f2 f3 : Char} {n : Nat} {v : Str}
    (hv : v ∈ form_templates f1 f2 f3 n) : FATHA ∈ v := by
  unfold form_templates at hv
  split_ifs at hv <;>
    simp only [List.mem_cons, List.not_mem_nil, or_false] at hv <;>
    first
      | exact hv.elim
      | (rcases hv with rfl | rfl | rfl <;> simp)

/-- C4 amended: for every input that strips to exactly 3 letters and every
supported target form, generate_variants emits at most 3 candidate spellings
(the returned VariantSet has length 1, 2 or 3); only form 1 emits 3, the
other supported forms emit 1 or 2. -/
theorem C4_variant_count :
    ∀ input : Str, (strip_vocalization input).length = 3 →
      (∀ n ∈ [1, 2, 3, 4, 5, 6, 7, 8, 10],
        1 ≤ (generate_form_variants input n).length ∧
        (generate_form_variants input n).length ≤ 3) ∧
      (generate_form_variants input 1).length = 3 ∧
      (∀ n ∈ [2, 3, 4, 5, 6, 7, 8, 10],
        1 ≤ (generate_form_variants input n).length ∧
        (generate_form_variants input n).length ≤ 2) := by
  intro input hlen
  obtain ⟨f1, f2, f3, hroot⟩ := List.length_eq_three.mp hlen
  have hfull : ∀ n : Nat, generate_form_variants input n = form_templates f1 f2 f3 n := by
    intro n
    rw [generate_eq_filter n hroot]
    exact List.filter_eq_self.mpr
      (fun v hv => variant_kept_of_mem_fatha (mem_form_templates_fatha hv))
  refine ⟨?_, ?_, ?_⟩
  · intro n hn
    rw [hfull n]
    fin_cases hn <;> norm_num [form_templates]
  · rw [hfull 1]
    norm_num [form_templates]
  · intro n hn
    rw [hfull n]
    fin_cases hn <;> norm_num [form_templates]

/-- C4 witness: form 1 of كتب has exactly 3 candidates and form 2 has 1-2. -/
theorem C4_variant_count_witness :
    (generate_form_variants KTB 1).length = 3 ∧
    1 ≤ (generate_form_variants KTB 2).length ∧
    (generate_form_variants KTB 2).length ≤ 2 :=
  ⟨(C4_variant_count KTB (by decide)).2.1,
   (C4_variant_count KTB (by decide)).2.2 2 (by decide)⟩

/-- C10: every candidate the generator returns contains the three stripped
root letters in order as a subsequence (List.Sublist). -/
theorem C10_root_preserved :
    ∀ (input : Str) (f1 f2 f3 : Char) (n : Nat) (v : Str),
      strip_vocalization input = [f1, f2, f3] →
      v ∈ generate_form_variants input n →
      List.Sublist [f1, f2, f3] v := by
  intro input f1 f2 f3 n v hroot hv
  rw [generate_eq_filter n hroot] at hv
  have hv2 : v ∈ form_templates f1 f2 f3 n := (List.mem_filter.mp hv).1
  unfold form_templates at hv2
  split_ifs at hv2 <;>
  first
    | exact absurd hv2 (List.not_mem_nil v)
    | (simp only [List.mem_cons, List.not_mem_nil, or_false] at hv2
       rcases hv2 with rfl | rfl | rfl <;>
         repeat' first
           | exact List.Sublist.refl _
           | exact List.nil_sublist _
           | apply List.Sublist.cons₂
           | apply List.Sublist.cons)

/-- C10 witness: the first form 2 candidate for كتب keeps ك ت ب in order. -/
theorem C10_root_preserved_witness :
    List.Sublist [KAF, TEH, BEH] [KAF, FATHA, TEH, SHADDA, FATHA, BEH] :=
  C10_root_preserved KTB KAF TEH BEH 2 [KAF, FATHA, TEH, SHADDA, FATHA, BEH]
    (by decide) (by decide)

/-- C7: build_forms_table returns the literal sentinel No verb provided for
the empty word, and the literal Form (filter) not available for verb (word)
whenever the (truthy) filter is absent from the computed forms map; both are
ordinary return values of the total embedded function, not raised faults. -/
theorem C7_sentinel_strings :
    (∀ (ff : Option Nat) (t : Bool),
      create_verb_forms_table [] ff t = ("No verb provided").toList) ∧
    (∀ (word : Str) (n : Nat) (t : Bool), word ≠ [] → n ≠ 0 →
      (forms_data_for word).lookup n = none →
      create_verb_forms_table word (some n) t =
        ("Form ").toList ++ natToChars n ++ (" not available for verb ").toList ++
          [SQUOTE] ++ word ++ [SQUOTE]) := by
  constructor
  · intro ff t
    rfl
  · intro word n t hw hn hlk
    unfold create_verb_forms_table
    rw [if_neg hw]
    simp [hlk, hn]

/-- C7 witness: the empty word yields No verb provided, and form 9 (which has
no generator template) is reported unavailable for كَتَبَ. -/
theorem C7_sentinel_strings_witness :
    create_verb_forms_table [] (some 3) false = ("No verb provided").toList ∧
    create_verb_forms_table KATABA (some 9) false =
      ("Form ").toList ++ natToChars 9 ++ (" not available for verb ").toList ++
        [SQUOTE] ++ KATABA ++ [SQUOTE] :=
  ⟨C7_sentinel_strings.1 (some 3) false,
   C7_sentinel_strings.2 KATABA 9 false (by decide) (by decide) (by decide)⟩

/-- The form 2 data row is among the rendered lines of the filtered table. -/
theorem row2_mem_filtered_table_lines :
    ascii_row KATABA [(1, KATABA)] (some 1) 2 ∈
      create_ascii_table_lines KATABA [(1, KATABA)] := by
  decide

/-- The filtered table call for كَتَبَ renders the singleton forms map. -/
theorem filtered_table_eq_ascii :
    create_verb_forms_table KATABA (some 1) false =
      create_ascii_table KATABA [(1, KATABA)] := by
  unfold create_verb_forms_table
  rw [if_neg (by decide)]
  simp [show (forms_data_for KATABA).lookup 1 = some KATABA from by decide]

/-- C2 counterexample: for كَتَبَ with form_filter 1 (present in the computed
forms map) the claim says the returned table contains a data row only for
form 1, but the rendered form 2 data row is still a contiguous substring of
the returned table text. -/
theorem C2_counterexample :
    ascii_row KATABA [(1, KATABA)] (some 1) 2 <:+:
      create_verb_forms_table KATABA (some 1) false := by
  rw [filtered_table_eq_ascii]
  exact mem_intercalate _ row2_mem_filtered_table_lines

/-- C2 amended: when the (truthy) filter is present in the computed forms map,
the forms map handed to the renderer is restricted to that single entry, but
the rendered comparison table still contains one data row for every form
1..10, not only for the filtered form. -/
theorem C2_filter_restricts_map :
    ∀ (word : Str) (n : Nat) (t : Bool) (v : Str), word ≠ [] → n ≠ 0 →
      (forms_data_for word).lookup n = some v →
      create_verb_forms_table word (some n) t = create_ascii_table word [(n, v)] ∧
      ∀ m, 1 ≤ m → m ≤ 10 →
        ascii_row word [(n, v)] (ascii_current word).1 m ∈
          create_ascii_table_lines word [(n, v)] := by
  intro word n t v hw hn hlk
  constructor
  · unfold create_verb_forms_table
    rw [if_neg hw]
    simp [hlk, hn]
  · intro m hm1 hm2
    have hmem : m ∈ List.range' 1 10 := by
      rw [List.mem_range'_1]
      omega
    have hrow : ascii_row word [(n, v)] (ascii_current word).1 m ∈
        ascii_table_main word [(n, v)] := by
      unfold ascii_table_main
      have := List.mem_map_of_mem (ascii_row word [(n, v)] (ascii_current word).1) hmem
      simp only [List.mem_append]
      tauto
    have hpre : ∀ x, x ∈ ascii_table_main word [(n, v)] →
        x ∈ create_ascii_table_lines word [(n, v)] := by
      intro x hx
      unfold create_ascii_table_lines
      rcases hcur : (ascii_current word).1 with _ | cf
      · exact hx
      · by_cases hcf : cf ≠ 0
        · simp only [if_pos hcf]
          exact List.mem_append_left _ hx
        · simp only [if_neg hcf]
          exact hx
    exact hpre _ hrow

/-- C2 witness: for كَتَبَ with filter 1 the table is rendered from the single
entry map, and (for instance) the form 2 data row is among the table lines. -/
theorem C2_filter_restricts_map_witness :
    create_verb_forms_table KATABA (some 1) false =
      create_ascii_table KATABA [(1, KATABA)] ∧
    ascii_row KATABA [(1, KATABA)] (ascii_current KATABA).1 2 ∈
      create_ascii_table_lines KATABA [(1, KATABA)] := by
  obtain ⟨h1, h2⟩ :=
    C2_filter_restricts_map KATABA 1 false KATABA (by decide) (by decide) (by decide)
  exact ⟨h1, h2 2 (by decide) (by decide)⟩

/-- C6: with a display format other than FORM_TABLE/COMPREHENSIVE_TABLE and a
form filter set, conjugate classifies first: a mismatch returns the literal
error string Error: Verb (word) is Form (detected), not Form (filter)
without reaching the engine, a match forwards to the engine; in particular
كَتَبَ with filter 2 and format HTML yields the error text containing Error:
and not Form 2, while filter 1 forwards to the engine (no error string). -/
theorem C6_filter_validation :
    (∀ (word ft : Str) (a p f pv im fm c tr : Bool) (fmt : Str) (n : Nat),
      pyUpper fmt ≠ ("FORM_TABLE").toList →
      pyUpper fmt ≠ ("COMPREHENSIVE_TABLE").toList →
      (((detect_form_pattern word).1 ≠ some n →
        conjugate word ft a p f pv im fm c tr fmt (some n) =
          .str (mismatch_error word (detect_form_pattern word).1 n)) ∧
       ((detect_form_pattern word).1 = some n →
        conjugate word ft a p f pv im fm c tr fmt (some n) =
          .sarf { word := word, future_type := ft, alltense := a, past := p,
                  future := f, passive := pv, imperative := im,
                  future_moode := fm, confirmed := c, transitive := tr,
                  display_format := fmt }))) ∧
    (∀ (ft : Str) (a p f pv im fm c tr : Bool),
      ∃ s, conjugate KATABA ft a p f pv im fm c tr ("HTML").toList (some 2) =
          .str s ∧
        ("Error:").toList <:+: s ∧ ("not Form 2").toList <:+: s) ∧
    (∀ (ft : Str) (a p f pv im fm c tr : Bool),
      conjugate KATABA ft a p f pv im fm c tr ("HTML").toList (some 1) =
        .sarf { word := KATABA, future_type := ft, alltense := a, past := p,
                future := f, passive := pv, imperative := im, future_moode := fm,
                confirmed := c, transitive := tr,
                display_format := ("HTML").toList }) := by
  have core : ∀ (word ft : Str) (a p f pv im fm c tr : Bool) (fmt : Str) (n : Nat),
      pyUpper fmt ≠ ("FORM_TABLE").toList →
      pyUpper fmt ≠ ("COMPREHENSIVE_TABLE").toList →
      (((detect_form_pattern word).1 ≠ some n →
        conjugate word ft a p f pv im fm c tr fmt (some n) =
          .str (mismatch_error word (detect_form_pattern word).1 n)) ∧
       ((detect_form_pattern word).1 = some n →
        conjugate word ft a p f pv im fm c tr fmt (some n) =
          .sarf { word := word, future_type := ft, alltense := a, past := p,
                  future := f, passive := pv, imperative := im,
                  future_moode := fm, confirmed := c, transitive := tr,
                  display_format := fmt })) := by
    intro word ft a p f pv im fm c tr fmt n h1 h2
    constructor
    · intro hne
      unfold conjugate
      rw [if_neg h1, if_neg h2]
      simp [hne]
    · intro heq
      unfold conjugate
      rw [if_neg h1, if_neg h2]
      simp [heq]
  refine ⟨core, ?_, ?_⟩
  · intro ft a p f pv im fm c tr
    refine ⟨mismatch_error KATABA (detect_form_pattern KATABA).1 2, ?_, ?_, ?_⟩
    · exact (core KATABA ft a p f pv im fm c tr ("HTML").toList 2
        (by decide) (by decide)).1 (by decide)
    · decide
    · decide
  · intro ft a p f pv im fm c tr
    exact (core KATABA ft a p f pv im fm c tr ("HTML").toList 1
      (by decide) (by decide)).2 (by decide)

/-- C6 witness: a mismatching filter on كتب (unclassifiable) and the two
concrete HTML fixtures, at concrete flag values. -/
theorem C6_filter_validation_witness :
    (∃ s, conjugate KATABA [] false false false false false false false false
        ("HTML").toList (some 2) = .str s ∧
      ("Error:").toList <:+: s ∧ ("not Form 2").toList <:+: s) ∧
    conjugate KATABA [] false false false false false false false false
        ("HTML").toList (some 1) =
      .sarf { word := KATABA, future_type := [], alltense := false,
              past := false, future := false, passive := false,
              imperative := false, future_moode := false, confirmed := false,
              transitive := false, display_format := ("HTML").toList } :=
  ⟨C6_filter_validation.2.1 [] false false false false false false false false,
   C6_filter_validation.2.2 [] false false false false false false false false⟩

/-- C9: a word classified (none, 0) together with any filter 1..10 and any
display format other than the two table formats always yields the mismatch
error string, rendered with the detected form as None, and never reaches the
external conjugation engine. -/
theorem C9_unclassifiable_filtered :
    ∀ (word ft : Str) (a p f pv im fm c tr : Bool) (fmt : Str) (n : Nat),
      pyUpper fmt ≠ ("FORM_TABLE").toList →
      pyUpper fmt ≠ ("COMPREHENSIVE_TABLE").toList →
      detect_form_pattern word = (none, 0) →
      1 ≤ n → n ≤ 10 →
      conjugate word ft a p f pv im fm c tr fmt (some n) =
        .str (mismatch_error word none n) ∧
      ("None").toList <:+: mismatch_error word none n ∧
      ∀ sc : SarfCall,
        conjugate word ft a p f pv im fm c tr fmt (some n) ≠ .sarf sc := by
  intro word ft a p f pv im fm c tr fmt n h1 h2 hdet hn1 hn2
  have hd1 : (detect_form_pattern word).1 = none := by rw [hdet]
  have herr : conjugate word ft a p f pv im fm c tr fmt (some n) =
      .str (mismatch_error word none n) := by
    unfold conjugate
    rw [if_neg h1, if_neg h2]
    simp [hd1]
  refine ⟨herr, ?_, ?_⟩
  · refine ⟨("Error: Verb ").toList ++ [SQUOTE] ++ word ++ [SQUOTE] ++ (" is Form ").toList,
      (", not Form ").toList ++ natToChars n, ?_⟩
    simp [mismatch_error, pyFormatOptNat, SQUOTE]
  · intro sc hcontra
    rw [herr] at hcontra
    cases hcontra

/-- C9 witness: the unvocalized كتب with filter 1 and format HTML yields the
Form None mismatch error and not an engine call. -/
theorem C9_unclassifiable_filtered_witness :
    conjugate KTB [] false false false false false false false false
        ("HTML").toList (some 1) = .str (mismatch_error KTB none 1) ∧
    ("None").toList <:+: mismatch_error KTB none 1 :=
  (fun h => ⟨h.1, h.2.1⟩)
    (C9_unclassifiable_filtered KTB [] false false false false false false false
      false ("HTML").toList 1 (by decide) (by decide) (by decide) (by decide)
      (by decide))

end Qutrub
